/-
Verification of the OpenPGP card command core (src/openpgp.c) of the
nitrokey-start firmware, as a shallow embedding in Lean 4.

Control flow and arithmetic of the handlers are translated directly from
src/openpgp.c.  External collaborators (the verify primitives of ac.c,
the data-object store gpg_do_*, the RSA primitives, SHA-1) are
parameters gathered in `Env`.  Helpers of this repository that are not
part of src/ (the status-word writer macros of openpgp.h, the
access-condition and error-counter helpers, and a few constants) are
modelled from the specification and marked as such in their doc
comments.

A handler result carries the successor card state, the list of calls
made to the external store and verify primitives, and the chronological
list of response-buffer writes.  The response actually seen by the host
is the last write (the status macros of openpgp.h write the response
buffer and do not return: handlers in src/openpgp.c that want an early
exit follow the macro with an explicit `return;`, e.g. lines 203-204,
so where no `return` follows, execution falls through).
-/
import Mathlib

namespace Gnuk

/-- Read byte `i` of a buffer (0 outside the valid range). -/
def byte (cmd : List Nat) (i : Nat) : Nat := cmd.getD i 0

/-- The `len` bytes of the buffer starting at offset `start`. -/
def slice (cmd : List Nat) (start len : Nat) : List Nat :=
  (cmd.drop start).take len

/-- A response APDU: data bytes followed by the two status bytes,
as assembled by `write_res_apdu` of src/openpgp.c. -/
structure Response where
  data : List Nat
  sw1 : Nat
  sw2 : Nat
deriving Repr, DecidableEq

/-- write_res_apdu of src/openpgp.c: `len` data bytes then SW1 SW2. -/
def write_res_apdu (p : List Nat) (sw1 sw2 : Nat) : Response :=
  { data := p, sw1 := sw1, sw2 := sw2 }

/-- Modelled from the spec: GPG_SUCCESS of openpgp.h (missing from
src/) writes status `90 00` with no data. -/
def GPG_SUCCESS : Response := write_res_apdu [] 0x90 0x00

/-- Modelled from the spec: GPG_ERROR of openpgp.h, the generic error
`6F 00` for unsupported subcases. -/
def GPG_ERROR : Response := write_res_apdu [] 0x6f 0x00

/-- Modelled from the spec: GPG_SECURITY_FAILURE of openpgp.h,
security status not satisfied `69 82`. -/
def GPG_SECURITY_FAILURE : Response := write_res_apdu [] 0x69 0x82

/-- Modelled from the spec: GPG_SECURITY_AUTH_BLOCKED of openpgp.h,
authentication blocked `69 83`. -/
def GPG_SECURITY_AUTH_BLOCKED : Response := write_res_apdu [] 0x69 0x83

/-- Modelled from the spec: GPG_MEMORY_FAILURE of openpgp.h, memory
failure `65 81`. -/
def GPG_MEMORY_FAILURE : Response := write_res_apdu [] 0x65 0x81

/-- Modelled from the spec: GPG_NO_RECORD of openpgp.h, referenced
data not found `6A 88`. -/
def GPG_NO_RECORD : Response := write_res_apdu [] 0x6a 0x88

/-- Modelled from the spec: GPG_NO_FILE of openpgp.h, file not found
`6A 82`. -/
def GPG_NO_FILE : Response := write_res_apdu [] 0x6a 0x82

/-- Modelled from the spec: GPG_BAD_P0_P1 of openpgp.h, wrong
parameters `6B 00`. -/
def GPG_BAD_P0_P1 : Response := write_res_apdu [] 0x6b 0x00

/-- Modelled from the spec: GPG_NO_INS of openpgp.h, instruction not
supported `6D 00`. -/
def GPG_NO_INS : Response := write_res_apdu [] 0x6d 0x00

/-- File-selection constants of src/openpgp.c lines 72-76. -/
def FILE_NONE : Nat := 0

def FILE_DF_OPENPGP : Nat := 1

def FILE_MF : Nat := 2

def FILE_EF_DIR : Nat := 3

def FILE_EF_SERIAL : Nat := 4

/-- Modelled from the spec: role constants of gnuk.h (missing from
src/).  `who = P2 - 0x80` in cmd_change_password with P2 = 0x81
selecting the user role forces BY_USER = 1; PW3 has P2 = 0x83. -/
def BY_USER : Nat := 1

/-- Modelled from the spec: the Reset Code role of gnuk.h. -/
def BY_RESETCODE : Nat := 2

/-- Modelled from the spec: the admin (PW3) role of gnuk.h. -/
def BY_ADMIN : Nat := 3

/-- Modelled from the spec: key-slot constants of gnuk.h. -/
def GPG_KEY_FOR_SIGNING : Nat := 0

/-- Modelled from the spec: key-slot constant of gnuk.h. -/
def GPG_KEY_FOR_DECRYPTION : Nat := 1

/-- Modelled from the spec: key-slot constant of gnuk.h. -/
def GPG_KEY_FOR_AUTHENTICATION : Nat := 2

/-- Modelled from the spec: SHA-1 digest size, 20 bytes. -/
def KEYSTRING_MD_SIZE : Nat := 20

/-- Modelled from the spec: a stored PW1 keystring record
`[len | SHA1(pw)]` is 21 bytes. -/
def KEYSTRING_SIZE_PW1 : Nat := 21

/-- Modelled from the spec: identifier of the PW1 keystring data
object (NR_DO_KEYSTRING_PW1 of gnuk.h); only its distinctness
matters here. -/
def NR_DO_KEYSTRING_PW1 : Nat := 1

/-- Modelled from the spec: identifier of the Reset Code keystring
data object (NR_DO_KEYSTRING_RC of gnuk.h). -/
def NR_DO_KEYSTRING_RC : Nat := 2

/-- Modelled from the spec: the factory default PW1
OPENPGP_CARD_INITIAL_PW1 is "123456" (six bytes). -/
def OPENPGP_CARD_INITIAL_PW1_LEN : Nat := 6

/-- Modelled from the spec: each error counter allows three attempts;
a saturated counter means the credential is blocked
(gpg_passwd_locked of gpg-do, missing from src/). -/
def gpg_passwd_locked (counter : Nat) : Bool := 3 ≤ counter

/-- The mutable card state owned by the command core: the selected
file, the three authorization flags, the three PIN error counters and
the digital-signature counter. -/
structure CardState where
  file_selection : Nat
  ac_pso_cds : Bool
  ac_pso_other : Bool
  ac_admin : Bool
  pw_err_pw1 : Nat
  pw_err_pw3 : Nat
  pw_err_rc : Nat
  ds_counter : Nat
deriving Repr, DecidableEq

/-- Card state after power-up: nothing selected, no authorization. -/
def initialState : CardState :=
  { file_selection := FILE_NONE, ac_pso_cds := false, ac_pso_other := false,
    ac_admin := false, pw_err_pw1 := 0, pw_err_pw3 := 0, pw_err_rc := 0,
    ds_counter := 0 }

/-- External collaborators of the command core (spec section 6),
as result oracles: the verify primitives, the data-object store, the
RSA primitives, SHA-1, and the cached globals of other modules. -/
structure Env where
  verify_pso_cds : List Nat → Int
  verify_pso_other : List Nat → Int
  verify_admin : List Nat → Int
  verify_admin_0 : List Nat → Nat → Int
  gpg_do_load_prvkey : Nat → Nat → List Nat → Int
  gpg_do_chks_prvkey : Nat → Nat → List Nat → Nat → List Nat → Int
  gpg_do_read_simple : Nat → Option (List Nat)
  doGetData : Nat → Response
  doPutData : Nat → List Nat → Response
  publicKeyResp : Nat → Response
  rsa_sign : List Nat → Int
  rsaSignResp : List Nat → Response
  rsa_decrypt : List Nat → Int
  rsaDecryptResp : List Nat → Response
  sha1 : List Nat → List Nat
  gpg_get_pw1_lifetime : Bool
  data_objects_number_of_bytes : Nat
  pw1_keystring : List Nat
  keystring_md_pw3 : List Nat
  openpgpcard_aid : List Nat

/-- A call made by a handler to an external collaborator. -/
inductive ExtCall where
  | verifyPsoCds (pw : List Nat)
  | verifyPsoOther (pw : List Nat)
  | verifyAdmin (pw : List Nat)
  | doGetData (tag : Nat)
  | doPutData (tag : Nat) (data : List Nat)
  | writeSimple (nr : Nat) (data : List Nat)
  | setPw3 (data : List Nat)
  | rsaSign (input : List Nat)
  | rsaDecrypt (input : List Nat)
  | publicKey (tag : Nat)
deriving Repr, DecidableEq

/-- Result of one handler invocation: the successor card state, the
calls made to the external store and primitives, and the chronological
list of response-buffer writes (the host sees the last one). -/
structure HandlerResult where
  st : CardState
  trace : List ExtCall
  writes : List Response
deriving Repr, DecidableEq

/-- The status word the host sees: SW1/SW2 of the last response
write. -/
def swOf (hr : HandlerResult) : Nat × Nat :=
  match hr.writes.getLast? with
  | some r => (r.sw1, r.sw2)
  | none => (0, 0)

/-- The data bytes the host sees: data of the last response write. -/
def dataOf (hr : HandlerResult) : List Nat :=
  match hr.writes.getLast? with
  | some r => r.data
  | none => []

/-- The shared extended-length rule of src/openpgp.c (cmd_verify lines
91-96 and its copies in cmd_change_password, cmd_reset_user_password,
cmd_pso, cmd_internal_authenticate): if `cmd_APDU[4]` is zero, the true
Lc is `cmd_APDU[5] << 8 | cmd_APDU[6]`. -/
def apduLc (cmd : List Nat) : Nat :=
  if byte cmd 4 = 0 then byte cmd 5 * 256 + byte cmd 6 else byte cmd 4

/-- The companion of `apduLc`: data begins at offset 7 in the extended
form and at offset 5 in the short form. -/
def apduDataStart (cmd : List Nat) : Nat :=
  if byte cmd 4 = 0 then 7 else 5

/-- The verify primitive selected by cmd_verify (P2 = 0x81 for
signing, 0x82 for other, anything else for admin) applied to the PIN
bytes of the command. -/
def verifyResult (env : Env) (cmd : List Nat) : Int :=
  let pw := slice cmd (apduDataStart cmd) (apduLc cmd)
  if byte cmd 3 = 0x81 then env.verify_pso_cds pw
  else if byte cmd 3 = 0x82 then env.verify_pso_other pw
  else env.verify_admin pw

/-- cmd_verify of src/openpgp.c lines 80-120.  The dispatch on P2 and
the mapping of the primitive result to the status word are translated
from the source.  The state effect of the verify primitives themselves
(ac.c, outside src/) is modelled from the spec contract: a negative
result has incremented the role's error counter, zero means the
credential is blocked, a positive result has reset the counter and set
the role's authorization flag. -/
def cmd_verify (env : Env) (s : CardState) (cmd : List Nat) : HandlerResult :=
  let pw := slice cmd (apduDataStart cmd) (apduLc cmd)
  let p2 := byte cmd 3
  let r : Int := verifyResult env cmd
  let call : ExtCall :=
    if p2 = 0x81 then ExtCall.verifyPsoCds pw
    else if p2 = 0x82 then ExtCall.verifyPsoOther pw
    else ExtCall.verifyAdmin pw
  let s1 : CardState :=
    if r < 0 then
      if p2 = 0x81 ∨ p2 = 0x82 then { s with pw_err_pw1 := s.pw_err_pw1 + 1 }
      else { s with pw_err_pw3 := s.pw_err_pw3 + 1 }
    else if r = 0 then s
    else
      if p2 = 0x81 then { s with pw_err_pw1 := 0, ac_pso_cds := true }
      else if p2 = 0x82 then { s with pw_err_pw1 := 0, ac_pso_other := true }
      else { s with pw_err_pw3 := 0, ac_admin := true }
  let resp : Response :=
    if r < 0 then GPG_SECURITY_FAILURE
    else if r = 0 then GPG_SECURITY_AUTH_BLOCKED
    else GPG_SUCCESS
  { st := s1, trace := [call], writes := [resp] }

/-- gpg_change_keystring of src/openpgp.c lines 122-169, parametrized
by the store primitives: for each of the three key slots, load under
the old keystring (propagating a negative load result), then rewrap
(any rewrap failure yields -2); returns 1 if at least one private key
existed, else 0. -/
def gpg_change_keystring (env : Env) (who_old : Nat) (old_ks : List Nat)
    (who_new : Nat) (new_ks : List Nat) : Int :=
  let r1 := env.gpg_do_load_prvkey GPG_KEY_FOR_SIGNING who_old old_ks
  if r1 < 0 then r1
  else
    let e1 : Nat := if 0 < r1 then 1 else 0
    let c1 := env.gpg_do_chks_prvkey GPG_KEY_FOR_SIGNING who_old old_ks who_new new_ks
    if c1 < 0 then -2
    else
      let r2 := env.gpg_do_load_prvkey GPG_KEY_FOR_DECRYPTION who_old old_ks
      if r2 < 0 then r2
      else
        let e2 : Nat := if 0 < r2 then 1 else 0
        let c2 := env.gpg_do_chks_prvkey GPG_KEY_FOR_DECRYPTION who_old old_ks who_new new_ks
        if c2 < 0 then -2
        else
          let r3 := env.gpg_do_load_prvkey GPG_KEY_FOR_AUTHENTICATION who_old old_ks
          if r3 < 0 then r3
          else
            let e3 : Nat := if 0 < r3 then 1 else 0
            let c3 := env.gpg_do_chks_prvkey GPG_KEY_FOR_AUTHENTICATION who_old old_ks who_new new_ks
            if c3 < 0 then -2
            else if 0 < e1 + e2 + e3 then 1 else 0

/-- Common tail of cmd_change_password (src/openpgp.c lines 242-278):
hash the old and new PINs, call gpg_change_keystring with the same role
on both sides, and dispatch on its result.  Note the source condition
`r < -2` on line 247: the memory-failure branch requires a result
strictly below -2. -/
def changePasswordTail (env : Env) (s : CardState) (cmd : List Nat)
    (who pwStart pw_len len : Nat) (tr : List ExtCall) : HandlerResult :=
  let pw := slice cmd pwStart pw_len
  let newpw_len := len - pw_len
  let newpw := slice cmd (pwStart + pw_len) newpw_len
  let old_ks := env.sha1 pw
  let new_ks := env.sha1 newpw
  let new_ks0 := newpw_len :: new_ks
  let r := gpg_change_keystring env who old_ks who new_ks
  if r < -2 then { st := s, trace := tr, writes := [GPG_MEMORY_FAILURE] }
  else if r < 0 then { st := s, trace := tr, writes := [GPG_SECURITY_FAILURE] }
  else if r = 0 ∧ who = BY_USER then
    { st := { s with ac_pso_cds := false, pw_err_pw1 := 0 },
      trace := tr ++ [ExtCall.writeSimple NR_DO_KEYSTRING_PW1 (new_ks0.take KEYSTRING_SIZE_PW1)],
      writes := [GPG_SUCCESS] }
  else if 0 < r ∧ who = BY_USER then
    { st := { s with ac_pso_cds := false, pw_err_pw1 := 0 },
      trace := tr ++ [ExtCall.writeSimple NR_DO_KEYSTRING_PW1 (new_ks0.take 1)],
      writes := [GPG_SUCCESS] }
  else
    { st := { s with pw_err_pw3 := 0 }, trace := tr, writes := [GPG_SUCCESS] }

/-- cmd_change_password of src/openpgp.c lines 171-279.  For PW1 the
split between old and new PIN comes from the stored keystring length
byte (or the factory default length 6 when none is stored); the old
PIN's digest is passed to gpg_change_keystring but is never compared
against the stored PW1 keystring.  For PW3 verify_admin_0 returns the
consumed old-PW3 length and the new PW3 is installed via gpg_set_pw3
before rewrapping. -/
def cmd_change_password (env : Env) (s : CardState) (cmd : List Nat) : HandlerResult :=
  let p2 := byte cmd 3
  let len := apduLc cmd
  let pwStart := apduDataStart cmd
  let who := p2 - 0x80
  if who = BY_USER then
    match env.gpg_do_read_simple NR_DO_KEYSTRING_PW1 with
    | none =>
      if len < OPENPGP_CARD_INITIAL_PW1_LEN then
        { st := s, trace := [], writes := [GPG_SECURITY_FAILURE] }
      else
        changePasswordTail env s cmd who pwStart OPENPGP_CARD_INITIAL_PW1_LEN len []
    | some pk =>
        changePasswordTail env s cmd who pwStart (byte pk 0) len []
  else
    let pw := slice cmd pwStart len
    let ra := env.verify_admin_0 pw len
    if ra < 0 then { st := s, trace := [], writes := [GPG_SECURITY_FAILURE] }
    else if ra = 0 then { st := s, trace := [], writes := [GPG_SECURITY_AUTH_BLOCKED] }
    else
      let pw_len := ra.toNat
      let newpw := slice cmd (pwStart + pw_len) (len - pw_len)
      changePasswordTail env s cmd who pwStart pw_len len [ExtCall.setPw3 newpw]

/-- cmd_reset_user_password of src/openpgp.c lines 281-402.  P1 = 0:
check the Reset Code (blocked / absent first), rewrap from
BY_RESETCODE to BY_USER, and on result 0 compare the RC digest; note
that on the rewrap path (result above 0) the source stores no PW1
keystring record at all.  P1 nonzero: admin path guarded by
AC_ADMIN_AUTHORIZED, rewrap from BY_ADMIN using the cached PW3
digest.  Both paths test `r < -2` for the memory-failure branch. -/
def cmd_reset_user_password (env : Env) (s : CardState) (cmd : List Nat) : HandlerResult :=
  let p1 := byte cmd 2
  let len := apduLc cmd
  let pwStart := apduDataStart cmd
  if p1 = 0 then
    if gpg_passwd_locked s.pw_err_rc then
      { st := s, trace := [], writes := [GPG_SECURITY_AUTH_BLOCKED] }
    else
      match env.gpg_do_read_simple NR_DO_KEYSTRING_RC with
      | none => { st := s, trace := [], writes := [GPG_SECURITY_FAILURE] }
      | some ks_rc =>
        let pw_len := byte ks_rc 0
        let newpw_len := len - pw_len
        let old_ks := env.sha1 (slice cmd pwStart pw_len)
        let new_ks := env.sha1 (slice cmd (pwStart + pw_len) newpw_len)
        let new_ks0 := newpw_len :: new_ks
        let r := gpg_change_keystring env BY_RESETCODE old_ks BY_USER new_ks
        if r < -2 then { st := s, trace := [], writes := [GPG_MEMORY_FAILURE] }
        else if r < 0 then
          { st := { s with pw_err_rc := s.pw_err_rc + 1 }, trace := [],
            writes := [GPG_SECURITY_FAILURE] }
        else if r = 0 then
          if (ks_rc.drop 1).take KEYSTRING_MD_SIZE ≠ old_ks.take KEYSTRING_MD_SIZE then
            { st := { s with pw_err_rc := s.pw_err_rc + 1 }, trace := [],
              writes := [GPG_SECURITY_FAILURE] }
          else
            { st := { s with ac_pso_cds := false, pw_err_rc := 0, pw_err_pw1 := 0 },
              trace := [ExtCall.writeSimple NR_DO_KEYSTRING_PW1 (new_ks0.take KEYSTRING_SIZE_PW1)],
              writes := [GPG_SUCCESS] }
        else
          { st := { s with ac_pso_cds := false, pw_err_rc := 0, pw_err_pw1 := 0 },
            trace := [], writes := [GPG_SUCCESS] }
  else
    if ¬ s.ac_admin then
      { st := s, trace := [], writes := [GPG_SECURITY_FAILURE] }
    else
      let new_ks := env.sha1 (slice cmd pwStart len)
      let new_ks0 := len :: new_ks
      let r := gpg_change_keystring env BY_ADMIN env.keystring_md_pw3 BY_USER new_ks
      if r < -2 then { st := s, trace := [], writes := [GPG_MEMORY_FAILURE] }
      else if r < 0 then { st := s, trace := [], writes := [GPG_SECURITY_FAILURE] }
      else if r = 0 then
        { st := { s with ac_pso_cds := false, pw_err_pw1 := 0 },
          trace := [ExtCall.writeSimple NR_DO_KEYSTRING_PW1 (new_ks0.take KEYSTRING_SIZE_PW1)],
          writes := [GPG_SUCCESS] }
      else
        { st := { s with ac_pso_cds := false, pw_err_pw1 := 0 },
          trace := [], writes := [GPG_SUCCESS] }

/-- cmd_put_data of src/openpgp.c lines 404-427.  The source lacks a
`return` after the GPG_NO_RECORD status write (unlike the guarded
early exits elsewhere in the file, which follow the macro with an
explicit `return;`), so the store delegation happens for every
selection.  Extended Lc is detected by `cmd_APDU_size - 5` reaching
256, not by the `cmd_APDU[4] = 0` rule of the other handlers. -/
def cmd_put_data (env : Env) (s : CardState) (cmd : List Nat) : HandlerResult :=
  let tag := byte cmd 2 * 256 + byte cmd 3
  let len : Int := (cmd.length : Int) - 5
  let data := if 256 ≤ len then slice cmd 7 (len - 2).toNat else slice cmd 5 len.toNat
  { st := s, trace := [ExtCall.doPutData tag data],
    writes := (if s.file_selection ≠ FILE_DF_OPENPGP then [GPG_NO_RECORD] else [])
      ++ [env.doPutData tag data] }

/-- cmd_get_data of src/openpgp.c lines 525-536.  As in cmd_put_data,
no `return` follows the GPG_NO_RECORD write, so gpg_do_get_data runs
(and its response write is the one the host sees) for every
selection. -/
def cmd_get_data (env : Env) (s : CardState) (cmd : List Nat) : HandlerResult :=
  let tag := byte cmd 2 * 256 + byte cmd 3
  { st := s, trace := [ExtCall.doGetData tag],
    writes := (if s.file_selection ≠ FILE_DF_OPENPGP then [GPG_NO_RECORD] else [])
      ++ [env.doGetData tag] }

/-- cmd_pgp_gakp of src/openpgp.c lines 429-446.  On the generate
branch the admin check writes the security-failure status without
returning, and the unconditional GPG_ERROR write that follows is the
status the host sees (last write wins). -/
def cmd_pgp_gakp (env : Env) (s : CardState) (cmd : List Nat) : HandlerResult :=
  if byte cmd 2 = 0x81 then
    { st := s, trace := [ExtCall.publicKey (byte cmd 7)],
      writes := [env.publicKeyResp (byte cmd 7)] }
  else
    { st := s, trace := [],
      writes := (if ¬ s.ac_admin then [GPG_SECURITY_FAILURE] else []) ++ [GPG_ERROR] }

/-- cmd_read_binary of src/openpgp.c lines 448-470: requires EF-SERIAL
selected, P2 below 6, and returns `5A` followed by the first aid[0]
bytes of the application AID and `90 00`. -/
def cmd_read_binary (env : Env) (s : CardState) (cmd : List Nat) : HandlerResult :=
  if s.file_selection = FILE_EF_SERIAL then
    if 6 ≤ byte cmd 3 then { st := s, trace := [], writes := [GPG_BAD_P0_P1] }
    else
      let len := byte env.openpgpcard_aid 0
      { st := s, trace := [],
        writes := [{ data := 0x5a :: env.openpgpcard_aid.take len, sw1 := 0x90, sw2 := 0x00 }] }
  else
    { st := s, trace := [], writes := [GPG_NO_RECORD] }

/-- select_file_TOP_result of src/openpgp.c lines 44-60: the MF
descriptor template, twenty bytes. -/
def select_file_TOP_result : List Nat :=
  [0x00, 0x00, 0x0b, 0x10, 0x3f, 0x00, 0x38, 0xff, 0xff, 0x44, 0x44,
   0x01, 0x05, 0x03, 0x01, 0x01, 0x00, 0x00, 0x00, 0x00]

/-- The response built by cmd_select_file for the MF with P2 distinct
from 0x0C: the template with bytes 2 and 3 patched to the low and high
byte of data_objects_number_of_bytes, status `90 00`. -/
def mf_descriptor_response (n : Nat) : Response :=
  { data := (select_file_TOP_result.set 2 (n % 256)).set 3 (n / 256 % 256),
    sw1 := 0x90, sw2 := 0x00 }

/-- cmd_select_file of src/openpgp.c lines 472-523: selection by DF
name (P1 = 4) picks DF-OPENPGP; name `2F 02` picks EF-SERIAL; name
`3F 00` picks the MF, answering with the patched descriptor template
unless P2 = 0x0C; anything else deselects and fails with `6A 82`. -/
def cmd_select_file (env : Env) (s : CardState) (cmd : List Nat) : HandlerResult :=
  if byte cmd 2 = 4 then
    { st := { s with file_selection := FILE_DF_OPENPGP }, trace := [], writes := [GPG_SUCCESS] }
  else if byte cmd 4 = 2 ∧ byte cmd 5 = 0x2f ∧ byte cmd 6 = 0x02 then
    { st := { s with file_selection := FILE_EF_SERIAL }, trace := [], writes := [GPG_SUCCESS] }
  else if byte cmd 4 = 2 ∧ byte cmd 5 = 0x3f ∧ byte cmd 6 = 0x00 then
    if byte cmd 3 = 0x0c then
      { st := { s with file_selection := FILE_MF }, trace := [], writes := [GPG_SUCCESS] }
    else
      { st := { s with file_selection := FILE_MF }, trace := [],
        writes := [mf_descriptor_response env.data_objects_number_of_bytes] }
  else
    { st := { s with file_selection := FILE_NONE }, trace := [], writes := [GPG_NO_FILE] }

/-- cmd_pso of src/openpgp.c lines 538-631.  PSO:CDS (9E 9A) requires
the CDS authorization and a command of exactly 43 or 44 bytes, signs,
and on success increments the digital-signature counter, clearing the
CDS authorization when the PW1 lifetime says single-use.  PSO:DECIPHER
(80 86) requires PW1 not blocked and the other-authorization, loads the
decryption key under the cached PW1 digest, and decrypts after
skipping the padding byte. -/
def cmd_pso (env : Env) (s : CardState) (cmd : List Nat) : HandlerResult :=
  let len := apduLc cmd
  let data_start := apduDataStart cmd
  if byte cmd 2 = 0x9e ∧ byte cmd 3 = 0x9a then
    if ¬ s.ac_pso_cds then
      { st := s, trace := [], writes := [GPG_SECURITY_FAILURE] }
    else if cmd.length ≠ 43 ∧ cmd.length ≠ 44 then
      { st := s, trace := [], writes := [GPG_ERROR] }
    else
      let input := slice cmd data_start len
      if env.rsa_sign input < 0 then
        { st := { s with ac_pso_cds := false }, trace := [ExtCall.rsaSign input],
          writes := [GPG_ERROR] }
      else
        let s1 := if env.gpg_get_pw1_lifetime then { s with ac_pso_cds := false } else s
        { st := { s1 with ds_counter := s1.ds_counter + 1 },
          trace := [ExtCall.rsaSign input], writes := [env.rsaSignResp input] }
  else if byte cmd 2 = 0x80 ∧ byte cmd 3 = 0x86 then
    if gpg_passwd_locked s.pw_err_pw1 ∨ ¬ s.ac_pso_other then
      { st := s, trace := [], writes := [GPG_SECURITY_FAILURE] }
    else if env.gpg_do_load_prvkey GPG_KEY_FOR_DECRYPTION BY_USER (env.pw1_keystring.drop 1) < 0 then
      { st := { s with pw_err_pw1 := s.pw_err_pw1 + 1 }, trace := [],
        writes := [GPG_SECURITY_FAILURE] }
    else
      let s1 : CardState := { s with pw_err_pw1 := 0, ac_pso_other := false }
      let input := slice cmd (data_start + 1) (len - 1)
      if env.rsa_decrypt input < 0 then
        { st := s1, trace := [ExtCall.rsaDecrypt input], writes := [GPG_ERROR] }
      else
        { st := s1, trace := [ExtCall.rsaDecrypt input], writes := [env.rsaDecryptResp input] }
  else
    { st := s, trace := [], writes := [GPG_ERROR] }

/-- cmd_internal_authenticate of src/openpgp.c lines 633-687: P1 and
P2 must be zero; requires PW1 not blocked and the other-authorization,
loads the authentication key under the cached PW1 digest, resets the
PW1 counter, clears the other-authorization and signs. -/
def cmd_internal_authenticate (env : Env) (s : CardState) (cmd : List Nat) : HandlerResult :=
  let len := apduLc cmd
  let data_start := apduDataStart cmd
  if byte cmd 2 = 0 ∧ byte cmd 3 = 0 then
    if gpg_passwd_locked s.pw_err_pw1 ∨ ¬ s.ac_pso_other then
      { st := s, trace := [], writes := [GPG_SECURITY_FAILURE] }
    else if env.gpg_do_load_prvkey GPG_KEY_FOR_AUTHENTICATION BY_USER (env.pw1_keystring.drop 1) < 0 then
      { st := { s with pw_err_pw1 := s.pw_err_pw1 + 1 }, trace := [],
        writes := [GPG_SECURITY_FAILURE] }
    else
      let s1 : CardState := { s with pw_err_pw1 := 0, ac_pso_other := false }
      let input := slice cmd data_start len
      if env.rsa_sign input < 0 then
        { st := s1, trace := [ExtCall.rsaSign input], writes := [GPG_ERROR] }
      else
        { st := s1, trace := [ExtCall.rsaSign input], writes := [env.rsaSignResp input] }
  else
    { st := s, trace := [], writes := [GPG_ERROR] }

/-- process_command_apdu of src/openpgp.c lines 710-728: dispatch on
the instruction byte at offset 1 through the command table (lines
695-707); an unknown instruction answers `6D 00`. -/
def process_command_apdu (env : Env) (s : CardState) (cmd : List Nat) : HandlerResult :=
  let ins := byte cmd 1
  if ins = 0x20 then cmd_verify env s cmd
  else if ins = 0x24 then cmd_change_password env s cmd
  else if ins = 0x2a then cmd_pso env s cmd
  else if ins = 0x2c then cmd_reset_user_password env s cmd
  else if ins = 0x47 then cmd_pgp_gakp env s cmd
  else if ins = 0x88 then cmd_internal_authenticate env s cmd
  else if ins = 0xa4 then cmd_select_file env s cmd
  else if ins = 0xb0 then cmd_read_binary env s cmd
  else if ins = 0xca then cmd_get_data env s cmd
  else if ins = 0xda ∨ ins = 0xdb then cmd_put_data env s cmd
  else { st := s, trace := [], writes := [GPG_NO_INS] }

/-- The exact conditions under which cmd_pso signs successfully for
PSO:CDS: dispatched to cmd_pso, parameters 9E 9A, CDS authorized,
command size 43 or 44, and a non-negative rsa_sign result. -/
def psoCdsSuccess (env : Env) (s : CardState) (cmd : List Nat) : Bool :=
  (byte cmd 1 == 0x2a) && (byte cmd 2 == 0x9e) && (byte cmd 3 == 0x9a)
    && s.ac_pso_cds && ((cmd.length == 43) || (cmd.length == 44))
    && decide (0 ≤ env.rsa_sign (slice cmd (apduDataStart cmd) (apduLc cmd)))

/-- Run a sequence of commands, each with its own external world. -/
def runCmds (steps : List (Env × List Nat)) (s : CardState) : CardState :=
  steps.foldl (fun st p => (process_command_apdu p.1 st p.2).st) s

/-- The body conditions of a successful PSO:CDS inside cmd_pso
(parameters 9E 9A, CDS authorized, command size 43 or 44, rsa_sign
non-negative), without the dispatcher's instruction test. -/
def PsoCdsBody (env : Env) (s : CardState) (cmd : List Nat) : Prop :=
  byte cmd 2 = 0x9e ∧ byte cmd 3 = 0x9a ∧ s.ac_pso_cds = true
    ∧ (cmd.length = 43 ∨ cmd.length = 44)
    ∧ 0 ≤ env.rsa_sign (slice cmd (apduDataStart cmd) (apduLc cmd))

instance (env : Env) (s : CardState) (cmd : List Nat) : Decidable (PsoCdsBody env s cmd) := by
  unfold PsoCdsBody; infer_instance

/-- A command is a successful PSO:CDS signature when it dispatches to
cmd_pso and satisfies `PsoCdsBody`. -/
def PsoCdsSuccess (env : Env) (s : CardState) (cmd : List Nat) : Prop :=
  byte cmd 1 = 0x2a ∧ PsoCdsBody env s cmd

instance (env : Env) (s : CardState) (cmd : List Nat) : Decidable (PsoCdsSuccess env s cmd) := by
  unfold PsoCdsSuccess; infer_instance

/-- A simple concrete external world for concrete evaluations: no
private keys, all primitives succeed, the store answers `90 00`. -/
def baseEnv : Env :=
  { verify_pso_cds := fun _ => 1
    verify_pso_other := fun _ => 1
    verify_admin := fun _ => 1
    verify_admin_0 := fun _ _ => 6
    gpg_do_load_prvkey := fun _ _ _ => 0
    gpg_do_chks_prvkey := fun _ _ _ _ _ => 0
    gpg_do_read_simple := fun _ => none
    doGetData := fun _ => write_res_apdu [0xaa] 0x90 0x00
    doPutData := fun _ _ => GPG_SUCCESS
    publicKeyResp := fun _ => GPG_SUCCESS
    rsa_sign := fun _ => 0
    rsaSignResp := fun _ => GPG_SUCCESS
    rsa_decrypt := fun _ => 0
    rsaDecryptResp := fun _ => GPG_SUCCESS
    sha1 := fun l => List.replicate 19 0 ++ [l.length % 256]
    gpg_get_pw1_lifetime := false
    data_objects_number_of_bytes := 0x100b
    pw1_keystring := []
    keystring_md_pw3 := []
    openpgpcard_aid := [] }

/-- `baseEnv` with a stored (length six) PW1 and Reset Code
keystring record. -/
def envStored : Env :=
  { baseEnv with gpg_do_read_simple := fun _ => some (6 :: List.replicate 20 0) }

/-- `envStored` in which every rewrap attempt hits a flash write
failure, so gpg_change_keystring reports -2. -/
def envFlashFail : Env :=
  { envStored with gpg_do_chks_prvkey := fun _ _ _ _ _ => -1 }

/-- `envStored` in which all three private keys exist and every
rewrap succeeds, so gpg_change_keystring reports 1. -/
def envKeys : Env :=
  { envStored with gpg_do_load_prvkey := fun _ _ _ => 1 }

/-- Card state with the master file selected. -/
def mfState : CardState := { initialState with file_selection := FILE_MF }

/-- Card state with DF-OPENPGP selected. -/
def dfState : CardState := { initialState with file_selection := FILE_DF_OPENPGP }

/-- GET DATA for tag 0x005E. -/
def cmdGetData : List Nat := [0x00, 0xca, 0x00, 0x5e, 0x00]

/-- Short-form PUT DATA for tag 0x005E with three data bytes. -/
def cmdPutData : List Nat := [0x00, 0xda, 0x00, 0x5e, 0x03, 0xaa, 0xbb, 0xcc]

/-- A PUT DATA command whose Lc slot byte is zero but whose total
length stays far below the 256-byte heuristic of cmd_put_data. -/
def cmdPutDataZeroLc : List Nat :=
  [0x00, 0xda, 0x00, 0x5e, 0x00, 0x00, 0x03, 0xaa, 0xbb, 0xcc]

/-- CHANGE REFERENCE DATA for PW1, old PIN "123456", new PIN
"newpw1" (spec scenario A). -/
def cmdChange : List Nat :=
  [0x00, 0x24, 0x00, 0x81, 0x0c, 0x31, 0x32, 0x33, 0x34, 0x35, 0x36,
   0x6e, 0x65, 0x77, 0x70, 0x77, 0x31]

/-- RESET RETRY COUNTER with P1 = 0: six reset-code bytes then six
new-PW1 bytes. -/
def cmdReset : List Nat :=
  [0x00, 0x2c, 0x00, 0x81, 0x0c, 1, 1, 1, 1, 1, 1, 9, 9, 9, 9, 9, 9]

/-- SELECT FILE of the master file `3F 00` with P1 = 0, P2 = 0. -/
def cmdSelectMF : List Nat := [0x00, 0xa4, 0x00, 0x00, 0x02, 0x3f, 0x00]

/-- SELECT FILE with P1 = 4 (selection by DF name) whose two name
bytes happen to be `3F 00`. -/
def cmdSelectMFByName : List Nat := [0x00, 0xa4, 0x04, 0x00, 0x02, 0x3f, 0x00]

/-- GENERATE ASYMMETRIC KEY PAIR with P1 = 0x80 (generate). -/
def cmdGakp : List Nat := [0x00, 0x47, 0x80, 0x00, 0x00]

/-- VERIFY with the out-of-range P2 = 0x00 and a three-byte PIN. -/
def cmdVerifyP2Zero : List Nat := [0x00, 0x20, 0x00, 0x00, 0x03, 1, 2, 3]

/-- Two CHANGE REFERENCE DATA commands for PW1 that agree everywhere
except in the six old-PIN bytes. -/
def cmdChangeA : List Nat :=
  [0x00, 0x24, 0x00, 0x81, 0x0c, 0x31, 0x32, 0x33, 0x34, 0x35, 0x36,
   0x6e, 0x65, 0x77, 0x70, 0x77, 0x31]

/-- The second command of the pair: old-PIN bytes all 0x41. -/
def cmdChangeB : List Nat :=
  [0x00, 0x24, 0x00, 0x81, 0x0c, 0x41, 0x41, 0x41, 0x41, 0x41, 0x41,
   0x6e, 0x65, 0x77, 0x70, 0x77, 0x31]

/-- C1: with the MF (not DF-OPENPGP) selected, cmd_get_data and
cmd_put_data still delegate the tag to the DO store (no `return`
follows the GPG_NO_RECORD status write in the source), and when the
store answers with data and `90 00` that success is the status the
host sees, so a successful GET DATA / PUT DATA does not imply that
DF-OPENPGP is selected. -/
theorem get_put_data_delegate_despite_wrong_selection :
    (cmd_get_data baseEnv mfState cmdGetData).trace = [ExtCall.doGetData 0x5e]
  ∧ swOf (cmd_get_data baseEnv mfState cmdGetData) = (0x90, 0x00)
  ∧ (cmd_put_data baseEnv mfState cmdPutData).trace
      = [ExtCall.doPutData 0x5e [0xaa, 0xbb, 0xcc]]
  ∧ swOf (cmd_put_data baseEnv mfState cmdPutData) = (0x90, 0x00)
  ∧ mfState.file_selection ≠ FILE_DF_OPENPGP := by decide

/-- C2: when gpg_change_keystring reports a flash failure by
returning -2, both cmd_change_password and cmd_reset_user_password
answer `69 82` and not the memory-failure status `65 81`: the source
guards the memory branch with `r < -2`, which -2 does not satisfy. -/
theorem flash_failure_answers_security_not_memory_status :
    gpg_change_keystring envFlashFail BY_USER [] BY_USER [] = -2
  ∧ swOf (cmd_change_password envFlashFail initialState cmdChange) = (0x69, 0x82)
  ∧ swOf (cmd_reset_user_password envFlashFail initialState cmdReset) = (0x69, 0x82)
  ∧ ((0x69 : Nat), (0x82 : Nat)) ≠ ((0x65 : Nat), (0x81 : Nat)) := by decide

/-- C3: a RESET RETRY COUNTER with P1 = 0 that succeeds after
rewrapping existing private keys (gpg_change_keystring = 1) resets the
PW1 and RC counters and clears the CDS authorization, but performs no
store write at all - in particular it does not store the length-only
PW1 keystring record. -/
theorem reset_retry_counter_rewrap_path_stores_no_record :
    gpg_change_keystring envKeys BY_RESETCODE [] BY_USER [] = 1
  ∧ swOf (cmd_reset_user_password envKeys initialState cmdReset) = (0x90, 0x00)
  ∧ (cmd_reset_user_password envKeys initialState cmdReset).st.pw_err_rc = 0
  ∧ (cmd_reset_user_password envKeys initialState cmdReset).st.pw_err_pw1 = 0
  ∧ (cmd_reset_user_password envKeys initialState cmdReset).st.ac_pso_cds = false
  ∧ (cmd_reset_user_password envKeys initialState cmdReset).trace = [] := by decide

/-- C4: counterexample.  A ten-byte PUT DATA whose Lc slot
`cmd_APDU[4]` is zero is nevertheless parsed by cmd_put_data in the
short form: the stored data starts at offset 5 and has length
`cmd_APDU_size - 5`, not the `cmd_APDU[5] << 8 | cmd_APDU[6]` bytes
from offset 7 that the extended-length rule of the other handlers
would give. -/
theorem put_data_ignores_zero_lc_marker :
    byte cmdPutDataZeroLc 4 = 0
  ∧ (cmd_put_data baseEnv dfState cmdPutDataZeroLc).trace
      = [ExtCall.doPutData 0x5e [0x00, 0x03, 0xaa, 0xbb, 0xcc]]
  ∧ [(0x00 : Nat), 0x03, 0xaa, 0xbb, 0xcc]
      ≠ slice cmdPutDataZeroLc 7 (byte cmdPutDataZeroLc 5 * 256 + byte cmdPutDataZeroLc 6) := by
  decide

/-- C7: counterexample.  The MF descriptor answered by
cmd_select_file for `3F 00` with P2 distinct from 0x0C has twenty data
bytes, not sixteen; and a SELECT FILE with Lc = 2 and data `3F 00` but
P1 = 4 is taken by the selection-by-name branch, which selects
DF-OPENPGP instead of the MF and returns no descriptor. -/
theorem select_mf_descriptor_is_twenty_bytes :
    (dataOf (cmd_select_file baseEnv initialState cmdSelectMF)).length = 20
  ∧ (dataOf (cmd_select_file baseEnv initialState cmdSelectMF)).length ≠ 16
  ∧ (cmd_select_file baseEnv initialState cmdSelectMFByName).st.file_selection
      = FILE_DF_OPENPGP
  ∧ FILE_DF_OPENPGP ≠ FILE_MF := by decide

/-- C8: on GENERATE ASYMMETRIC KEY PAIR with P1 = 0x80 and admin not
authorized, the source writes the security-failure status and then
falls through to the unconditional GPG_ERROR write, so the status the
host sees is the generic `6F 00`, not `69 82`. -/
theorem gakp_generate_without_admin_answers_generic_error :
    initialState.ac_admin = false
  ∧ (cmd_pgp_gakp baseEnv initialState cmdGakp).writes = [GPG_SECURITY_FAILURE, GPG_ERROR]
  ∧ swOf (cmd_pgp_gakp baseEnv initialState cmdGakp) = (0x6f, 0x00)
  ∧ ((0x6f : Nat), (0x00 : Nat)) ≠ ((0x69 : Nat), (0x82 : Nat)) := by decide

/-- C5: for every VERIFY command, a negative result of the selected
verify primitive answers `69 82`, a zero result answers `69 83`, and a
positive result answers `90 00`. -/
theorem verify_status_mapping (env : Env) (s : CardState) (cmd : List Nat) :
    swOf (cmd_verify env s cmd) =
      (if verifyResult env cmd < 0 then ((0x69 : Nat), (0x82 : Nat))
       else if verifyResult env cmd = 0 then (0x69, 0x83) else (0x90, 0x00)) := by
  unfold cmd_verify swOf
  rcases lt_trichotomy (verifyResult env cmd) 0 with h | h | h
  · simp [h, GPG_SECURITY_FAILURE, write_res_apdu]
  · simp [h, GPG_SECURITY_AUTH_BLOCKED, write_res_apdu]
  · simp [h, not_lt.mpr (le_of_lt h), (ne_of_gt h), GPG_SUCCESS, write_res_apdu]

/-- C9: a VERIFY whose P2 is neither 0x81 nor 0x82 (for example 0x00)
is not rejected as a wrong-P2 error: it invokes verify_admin on the
supplied PIN bytes, so it can increment the PW3 error counter on a
negative result or set AC_ADMIN_AUTHORIZED on a positive one. -/
theorem verify_other_p2_performs_admin_check (env : Env) (s : CardState) (cmd : List Nat)
    (h1 : byte cmd 3 ≠ 0x81) (h2 : byte cmd 3 ≠ 0x82) :
    (cmd_verify env s cmd).trace
      = [ExtCall.verifyAdmin (slice cmd (apduDataStart cmd) (apduLc cmd))]
  ∧ (env.verify_admin (slice cmd (apduDataStart cmd) (apduLc cmd)) < 0 →
      (cmd_verify env s cmd).st.pw_err_pw3 = s.pw_err_pw3 + 1
      ∧ swOf (cmd_verify env s cmd) = (0x69, 0x82))
  ∧ (0 < env.verify_admin (slice cmd (apduDataStart cmd) (apduLc cmd)) →
      (cmd_verify env s cmd).st.ac_admin = true
      ∧ (cmd_verify env s cmd).st.pw_err_pw3 = 0
      ∧ swOf (cmd_verify env s cmd) = (0x90, 0x00)) := by
  have hr : verifyResult env cmd
      = env.verify_admin (slice cmd (apduDataStart cmd) (apduLc cmd)) := by
    unfold verifyResult
    simp [h1, h2]
  refine ⟨?_, ?_, ?_⟩
  · simp [cmd_verify, h1, h2]
  · intro h
    constructor
    · simp [cmd_verify, hr, h, h1, h2]
    · simp [cmd_verify, swOf, hr, h, GPG_SECURITY_FAILURE, write_res_apdu]
  · intro h
    refine ⟨?_, ?_, ?_⟩
    · simp [cmd_verify, hr, not_lt.mpr (le_of_lt h), (ne_of_gt h), h1, h2]
    · simp [cmd_verify, hr, not_lt.mpr (le_of_lt h), (ne_of_gt h), h1, h2]
    · simp [cmd_verify, swOf, hr, not_lt.mpr (le_of_lt h), (ne_of_gt h),
        GPG_SUCCESS, write_res_apdu]

/-- C9 witness: VERIFY with P2 = 0x00 against a world whose admin
check succeeds performs the admin verification and authorizes the
admin. -/
theorem verify_other_p2_witness :
    (cmd_verify baseEnv initialState cmdVerifyP2Zero).trace
      = [ExtCall.verifyAdmin
          (slice cmdVerifyP2Zero (apduDataStart cmdVerifyP2Zero) (apduLc cmdVerifyP2Zero))]
  ∧ (cmd_verify baseEnv initialState cmdVerifyP2Zero).st.ac_admin = true
  ∧ (cmd_verify baseEnv initialState cmdVerifyP2Zero).st.pw_err_pw3 = 0
  ∧ swOf (cmd_verify baseEnv initialState cmdVerifyP2Zero) = (0x90, 0x00) := by
  have h := verify_other_p2_performs_admin_check baseEnv initialState cmdVerifyP2Zero
    (by decide) (by decide)
  exact ⟨h.1, h.2.2 (by decide)⟩

/-- C4 amended: cmd_put_data detects the extended form by the total
length after the header reaching 256 (data at offset 7, length
`cmd_APDU_size - 7`) and otherwise stores `cmd_APDU_size - 5` bytes
from offset 5; the `cmd_APDU[4] = 0` rule (true Lc from bytes 5 and 6,
data at offset 7) governs the other handlers, here represented by the
shared decoder `apduLc` / `apduDataStart` and by cmd_verify's PIN
slice. -/
theorem put_data_uses_total_length_heuristic (env : Env) (s : CardState) (cmd : List Nat) :
    (cmd_put_data env s cmd).trace
      = [ExtCall.doPutData (byte cmd 2 * 256 + byte cmd 3)
          (if 256 ≤ (cmd.length : Int) - 5 then slice cmd 7 ((cmd.length : Int) - 7).toNat
           else slice cmd 5 ((cmd.length : Int) - 5).toNat)]
  ∧ (byte cmd 4 = 0 → apduLc cmd = byte cmd 5 * 256 + byte cmd 6 ∧ apduDataStart cmd = 7)
  ∧ (cmd_verify env s cmd).trace
      = [if byte cmd 3 = 0x81 then
           ExtCall.verifyPsoCds (slice cmd (apduDataStart cmd) (apduLc cmd))
         else if byte cmd 3 = 0x82 then
           ExtCall.verifyPsoOther (slice cmd (apduDataStart cmd) (apduLc cmd))
         else ExtCall.verifyAdmin (slice cmd (apduDataStart cmd) (apduLc cmd))] := by
  refine ⟨?_, fun h => ⟨by simp [apduLc, h], by simp [apduDataStart, h]⟩, rfl⟩
  have h7 : (cmd.length : Int) - 5 - 2 = (cmd.length : Int) - 7 := by ring
  simp only [cmd_put_data, h7]

/-- C4 witness: on the concrete zero-Lc-byte command the shared
decoder does give the extended reading (which cmd_put_data ignores,
per the counterexample). -/
theorem put_data_uses_total_length_heuristic_witness :
    apduLc cmdPutDataZeroLc = byte cmdPutDataZeroLc 5 * 256 + byte cmdPutDataZeroLc 6
  ∧ apduDataStart cmdPutDataZeroLc = 7 :=
  (put_data_uses_total_length_heuristic baseEnv dfState cmdPutDataZeroLc).2.1 (by decide)

/-- C7 amended: a SELECT FILE with P1 distinct from 4, Lc = 2, data
`3F 00` and P2 distinct from 0x0C answers the fixed twenty-byte MF
descriptor template with bytes 2 and 3 patched to the low and high
byte of data_objects_number_of_bytes, status `90 00`, and selects the
MF. -/
theorem select_mf_answers_patched_descriptor (env : Env) (s : CardState) (cmd : List Nat)
    (h1 : byte cmd 2 ≠ 4) (h2 : byte cmd 4 = 2) (h3 : byte cmd 5 = 0x3f)
    (h4 : byte cmd 6 = 0x00) (h5 : byte cmd 3 ≠ 0x0c) :
    cmd_select_file env s cmd
      = { st := { s with file_selection := FILE_MF }, trace := [],
          writes := [mf_descriptor_response env.data_objects_number_of_bytes] }
  ∧ dataOf (cmd_select_file env s cmd)
      = (select_file_TOP_result.set 2 (env.data_objects_number_of_bytes % 256)).set 3
          (env.data_objects_number_of_bytes / 256 % 256)
  ∧ swOf (cmd_select_file env s cmd) = (0x90, 0x00)
  ∧ (dataOf (cmd_select_file env s cmd)).length = 20
  ∧ (cmd_select_file env s cmd).st.file_selection = FILE_MF := by
  have hmain : cmd_select_file env s cmd
      = { st := { s with file_selection := FILE_MF }, trace := [],
          writes := [mf_descriptor_response env.data_objects_number_of_bytes] } := by
    unfold cmd_select_file
    simp [h1, h2, h3, h4, h5]
  refine ⟨hmain, ?_, ?_, ?_, ?_⟩
  · rw [hmain]; rfl
  · rw [hmain]; rfl
  · rw [hmain]
    simp [dataOf, mf_descriptor_response, select_file_TOP_result]
  · rw [hmain]

/-- C7 witness: the concrete SELECT FILE `00 A4 00 00 02 3F 00`
receives the patched descriptor and selects the MF. -/
theorem select_mf_answers_patched_descriptor_witness :
    cmd_select_file baseEnv initialState cmdSelectMF
      = { st := { initialState with file_selection := FILE_MF }, trace := [],
          writes := [mf_descriptor_response baseEnv.data_objects_number_of_bytes] }
  ∧ dataOf (cmd_select_file baseEnv initialState cmdSelectMF)
      = (select_file_TOP_result.set 2 (baseEnv.data_objects_number_of_bytes % 256)).set 3
          (baseEnv.data_objects_number_of_bytes / 256 % 256)
  ∧ swOf (cmd_select_file baseEnv initialState cmdSelectMF) = (0x90, 0x00)
  ∧ (dataOf (cmd_select_file baseEnv initialState cmdSelectMF)).length = 20
  ∧ (cmd_select_file baseEnv initialState cmdSelectMF).st.file_selection = FILE_MF :=
  select_mf_answers_patched_descriptor baseEnv initialState cmdSelectMF
    (by decide) (by decide) (by decide) (by decide) (by decide)

/-- Bytes below the take bound agree when the takes agree. -/
theorem byte_take_eq {l1 l2 : List Nat} {n : Nat} (h : l1.take n = l2.take n)
    {i : Nat} (hi : i < n) : byte l1 i = byte l2 i := by
  unfold byte
  rw [List.getD_eq_getElem?_getD, List.getD_eq_getElem?_getD,
     ← List.getElem?_take_of_lt (l := l1) hi, h, List.getElem?_take_of_lt hi]

/-- With no private keys in the store (every load reports absent and
every rewrap trivially succeeds), gpg_change_keystring reports 0
whatever keystrings it is given. -/
theorem gpg_change_keystring_no_keys (env : Env)
    (hload : ∀ k w ks, env.gpg_do_load_prvkey k w ks = 0)
    (hchks : ∀ k w1 ks1 w2 ks2, env.gpg_do_chks_prvkey k w1 ks1 w2 ks2 = 0)
    (who_old : Nat) (old_ks : List Nat) (who_new : Nat) (new_ks : List Nat) :
    gpg_change_keystring env who_old old_ks who_new new_ks = 0 := by
  unfold gpg_change_keystring
  simp [hload, hchks]

/-- With no private keys, the common tail of cmd_change_password on
the PW1 role installs the full new keystring record, clears the CDS
authorization, resets the PW1 counter and succeeds, regardless of the
old-PIN bytes. -/
theorem changePasswordTail_no_keys (env : Env) (s : CardState) (cmd : List Nat)
    (pwStart pw_len len : Nat) (tr : List ExtCall)
    (hload : ∀ k w ks, env.gpg_do_load_prvkey k w ks = 0)
    (hchks : ∀ k w1 ks1 w2 ks2, env.gpg_do_chks_prvkey k w1 ks1 w2 ks2 = 0) :
    changePasswordTail env s cmd BY_USER pwStart pw_len len tr
      = { st := { s with ac_pso_cds := false, pw_err_pw1 := 0 },
          trace := tr ++ [ExtCall.writeSimple NR_DO_KEYSTRING_PW1
            (((len - pw_len)
              :: env.sha1 (slice cmd (pwStart + pw_len) (len - pw_len))).take KEYSTRING_SIZE_PW1)],
          writes := [GPG_SUCCESS] } := by
  unfold changePasswordTail
  simp [gpg_change_keystring_no_keys env hload hchks]

/-- C10: with no private keys stored, two CHANGE REFERENCE DATA
commands for PW1 (short form) that differ only in the old-PIN bytes
(the region from offset 5 up to the split at the stored length, with
equal total lengths) produce identical outcomes: the old PW1 digest
is fed only to gpg_change_keystring, which checks nothing when no
keys exist, so any old-PIN value of the expected length is accepted
and the new keystring record is installed with `90 00`. -/
theorem change_pw1_old_pin_never_compared (env : Env) (s : CardState)
    (cmd1 cmd2 : List Nat) (pw_len : Nat)
    (hload : ∀ k w ks, env.gpg_do_load_prvkey k w ks = 0)
    (hchks : ∀ k w1 ks1 w2 ks2, env.gpg_do_chks_prvkey k w1 ks1 w2 ks2 = 0)
    (hpw : pw_len = (match env.gpg_do_read_simple NR_DO_KEYSTRING_PW1 with
                     | none => OPENPGP_CARD_INITIAL_PW1_LEN
                     | some pk => byte pk 0))
    (hp2 : byte cmd1 3 = 0x81)
    (hlc : byte cmd1 4 ≠ 0)
    (hlen : pw_len ≤ byte cmd1 4)
    (hhead : cmd1.take 5 = cmd2.take 5)
    (htail : cmd1.drop (5 + pw_len) = cmd2.drop (5 + pw_len)) :
    cmd_change_password env s cmd1 = cmd_change_password env s cmd2
  ∧ swOf (cmd_change_password env s cmd1) = (0x90, 0x00)
  ∧ (cmd_change_password env s cmd1).trace
      = [ExtCall.writeSimple NR_DO_KEYSTRING_PW1
          (((byte cmd1 4 - pw_len)
            :: env.sha1 (slice cmd1 (5 + pw_len) (byte cmd1 4 - pw_len))).take KEYSTRING_SIZE_PW1)] := by
  have e3 : byte cmd1 3 = byte cmd2 3 := byte_take_eq hhead (by norm_num)
  have e4 : byte cmd1 4 = byte cmd2 4 := byte_take_eq hhead (by norm_num)
  have hsl : slice cmd1 (5 + pw_len) (byte cmd1 4 - pw_len)
      = slice cmd2 (5 + pw_len) (byte cmd2 4 - pw_len) := by
    unfold slice
    rw [htail, e4]
  have key : ∀ cmd : List Nat, byte cmd 3 = 0x81 → byte cmd 4 ≠ 0 →
      pw_len ≤ byte cmd 4 →
      cmd_change_password env s cmd
        = { st := { s with ac_pso_cds := false, pw_err_pw1 := 0 },
            trace := [ExtCall.writeSimple NR_DO_KEYSTRING_PW1
              (((byte cmd 4 - pw_len)
                :: env.sha1 (slice cmd (5 + pw_len) (byte cmd 4 - pw_len))).take KEYSTRING_SIZE_PW1)],
            writes := [GPG_SUCCESS] } := by
    intro cmd h3 h4 hl
    have hLc : apduLc cmd = byte cmd 4 := by unfold apduLc; simp [h4]
    have hDs : apduDataStart cmd = 5 := by unfold apduDataStart; simp [h4]
    unfold cmd_change_password
    rw [hLc, hDs, h3]
    rcases hE : env.gpg_do_read_simple NR_DO_KEYSTRING_PW1 with _ | pk
    · rw [hE] at hpw
      simp only at hpw
      rw [hpw] at hl
      simp only [show (0x81 : Nat) - 0x80 = BY_USER from rfl, if_pos rfl,
        if_neg (not_lt.mpr hl)]
      rw [changePasswordTail_no_keys env s cmd 5 OPENPGP_CARD_INITIAL_PW1_LEN
        (byte cmd 4) [] hload hchks, hpw]
      rfl
    · rw [hE] at hpw
      simp only at hpw
      simp only [show (0x81 : Nat) - 0x80 = BY_USER from rfl, if_pos rfl]
      rw [changePasswordTail_no_keys env s cmd 5 (byte pk 0) (byte cmd 4) [] hload hchks,
        ← hpw]
      rfl
  have h1 := key cmd1 hp2 hlc hlen
  have h2 := key cmd2 (e3 ▸ hp2) (e4 ▸ hlc) (e4 ▸ hlen)
  refine ⟨?_, ?_, ?_⟩
  · rw [h1, h2, hsl, e4]
  · rw [h1]
    rfl
  · rw [h1]

/-- C10 witness: two concrete commands differing only in the six
old-PIN bytes produce the same outcome, a success installing the same
new keystring record. -/
theorem change_pw1_old_pin_never_compared_witness :
    cmd_change_password envStored initialState cmdChangeA
      = cmd_change_password envStored initialState cmdChangeB
  ∧ swOf (cmd_change_password envStored initialState cmdChangeA) = (0x90, 0x00)
  ∧ (cmd_change_password envStored initialState cmdChangeA).trace
      = [ExtCall.writeSimple NR_DO_KEYSTRING_PW1
          (((byte cmdChangeA 4 - 6)
            :: envStored.sha1 (slice cmdChangeA (5 + 6) (byte cmdChangeA 4 - 6))).take KEYSTRING_SIZE_PW1)] :=
  change_pw1_old_pin_never_compared envStored initialState cmdChangeA cmdChangeB 6
    (fun _ _ _ => rfl) (fun _ _ _ _ _ => rfl) rfl rfl (by decide) (by decide) rfl rfl

/-- cmd_verify never touches the digital-signature counter. -/
theorem ds_cmd_verify (env : Env) (s : CardState) (cmd : List Nat) :
    (cmd_verify env s cmd).st.ds_counter = s.ds_counter := by
  unfold cmd_verify
  dsimp only
  split_ifs <;> rfl

/-- The change-password tail never touches the digital-signature
counter. -/
theorem ds_changePasswordTail (env : Env) (s : CardState) (cmd : List Nat)
    (who pwStart pw_len len : Nat) (tr : List ExtCall) :
    (changePasswordTail env s cmd who pwStart pw_len len tr).st.ds_counter
      = s.ds_counter := by
  unfold changePasswordTail
  dsimp only
  split_ifs <;> rfl

/-- cmd_change_password never touches the digital-signature
counter. -/
theorem ds_cmd_change_password (env : Env) (s : CardState) (cmd : List Nat) :
    (cmd_change_password env s cmd).st.ds_counter = s.ds_counter := by
  unfold cmd_change_password
  dsimp only
  repeat' split
  all_goals simp [ds_changePasswordTail]

/-- cmd_reset_user_password never touches the digital-signature
counter. -/
theorem ds_cmd_reset_user_password (env : Env) (s : CardState) (cmd : List Nat) :
    (cmd_reset_user_password env s cmd).st.ds_counter = s.ds_counter := by
  unfold cmd_reset_user_password
  dsimp only
  repeat' split
  all_goals rfl

/-- cmd_put_data never touches the card state. -/
theorem ds_cmd_put_data (env : Env) (s : CardState) (cmd : List Nat) :
    (cmd_put_data env s cmd).st.ds_counter = s.ds_counter := rfl

/-- cmd_get_data never touches the card state. -/
theorem ds_cmd_get_data (env : Env) (s : CardState) (cmd : List Nat) :
    (cmd_get_data env s cmd).st.ds_counter = s.ds_counter := rfl

/-- cmd_pgp_gakp never touches the card state. -/
theorem ds_cmd_pgp_gakp (env : Env) (s : CardState) (cmd : List Nat) :
    (cmd_pgp_gakp env s cmd).st.ds_counter = s.ds_counter := by
  unfold cmd_pgp_gakp
  split_ifs <;> rfl

/-- cmd_read_binary never touches the card state. -/
theorem ds_cmd_read_binary (env : Env) (s : CardState) (cmd : List Nat) :
    (cmd_read_binary env s cmd).st.ds_counter = s.ds_counter := by
  unfold cmd_read_binary
  dsimp only
  split_ifs <;> rfl

/-- cmd_select_file never touches the digital-signature counter. -/
theorem ds_cmd_select_file (env : Env) (s : CardState) (cmd : List Nat) :
    (cmd_select_file env s cmd).st.ds_counter = s.ds_counter := by
  unfold cmd_select_file
  split_ifs <;> rfl

/-- cmd_internal_authenticate never touches the digital-signature
counter. -/
theorem ds_cmd_internal_authenticate (env : Env) (s : CardState) (cmd : List Nat) :
    (cmd_internal_authenticate env s cmd).st.ds_counter = s.ds_counter := by
  unfold cmd_internal_authenticate
  dsimp only
  split_ifs <;> rfl

/-- cmd_pso increments the digital-signature counter exactly when the
PSO:CDS body conditions hold (CDS authorized, size 43 or 44, rsa_sign
succeeds), and otherwise leaves it unchanged. -/
theorem ds_cmd_pso (env : Env) (s : CardState) (cmd : List Nat) :
    (cmd_pso env s cmd).st.ds_counter
      = s.ds_counter + (if PsoCdsBody env s cmd then 1 else 0) := by
  unfold cmd_pso
  dsimp only
  by_cases hA : byte cmd 2 = 0x9e ∧ byte cmd 3 = 0x9a
  · rw [if_pos hA]
    by_cases hB : (s.ac_pso_cds : Prop)
    · rw [if_neg (by simpa using hB)]
      by_cases hC : cmd.length ≠ 43 ∧ cmd.length ≠ 44
      · rw [if_pos hC]
        have hF : ¬ PsoCdsBody env s cmd := by
          rintro ⟨-, -, -, h44, -⟩
          rcases h44 with h | h
          · exact hC.1 h
          · exact hC.2 h
        rw [if_neg hF]
        rfl
      · rw [if_neg hC]
        by_cases hD : env.rsa_sign (slice cmd (apduDataStart cmd) (apduLc cmd)) < 0
        · rw [if_pos hD]
          have hF : ¬ PsoCdsBody env s cmd := by
            rintro ⟨-, -, -, -, h⟩
            exact absurd hD (not_lt.mpr h)
          rw [if_neg hF]
          rfl
        · rw [if_neg hD]
          have h44 : cmd.length = 43 ∨ cmd.length = 44 := by
            rcases not_and_or.mp hC with h | h
            · exact Or.inl (not_ne_iff.mp h)
            · exact Or.inr (not_ne_iff.mp h)
          have hT : PsoCdsBody env s cmd :=
            ⟨hA.1, hA.2, by simpa using hB, h44, not_lt.mp hD⟩
          rw [if_pos hT]
          by_cases hL : env.gpg_get_pw1_lifetime
          · simp [hL]
          · simp [hL]
    · rw [if_pos (by simpa using hB)]
      have hF : ¬ PsoCdsBody env s cmd := by
        rintro ⟨-, -, hb, -, -⟩
        simp [hb] at hB
      rw [if_neg hF]
      rfl
  · rw [if_neg hA]
    have hF : ¬ PsoCdsBody env s cmd := by
      rintro ⟨hx, hy, -, -, -⟩
      exact hA ⟨hx, hy⟩
    rw [if_neg hF]
    split_ifs <;> rfl

/-- One dispatched command changes the digital-signature counter by
exactly the PSO:CDS success indicator. -/
theorem ds_step (env : Env) (s : CardState) (cmd : List Nat) :
    (process_command_apdu env s cmd).st.ds_counter
      = s.ds_counter + (if PsoCdsSuccess env s cmd then 1 else 0) := by
  have notPso : ∀ h : byte cmd 1 ≠ 0x2a, ¬ PsoCdsSuccess env s cmd := by
    intro h hP
    exact h (And.left (show byte cmd 1 = 0x2a ∧ PsoCdsBody env s cmd from hP))
  unfold process_command_apdu
  by_cases h20 : byte cmd 1 = 0x20
  · rw [if_pos h20, ds_cmd_verify, if_neg (notPso (by rw [h20]; norm_num))]
    omega
  rw [if_neg h20]
  by_cases h24 : byte cmd 1 = 0x24
  · rw [if_pos h24, ds_cmd_change_password, if_neg (notPso (by rw [h24]; norm_num))]
    omega
  rw [if_neg h24]
  by_cases h2a : byte cmd 1 = 0x2a
  · rw [if_pos h2a, ds_cmd_pso]
    have hiff : PsoCdsBody env s cmd ↔ PsoCdsSuccess env s cmd :=
      ⟨fun hb => show byte cmd 1 = 0x2a ∧ PsoCdsBody env s cmd from ⟨h2a, hb⟩,
       fun hP => And.right (show byte cmd 1 = 0x2a ∧ PsoCdsBody env s cmd from hP)⟩
    rw [if_congr hiff rfl rfl]
  rw [if_neg h2a]
  by_cases h2c : byte cmd 1 = 0x2c
  · rw [if_pos h2c, ds_cmd_reset_user_password, if_neg (notPso (by rw [h2c]; norm_num))]
    omega
  rw [if_neg h2c]
  by_cases h47 : byte cmd 1 = 0x47
  · rw [if_pos h47, ds_cmd_pgp_gakp, if_neg (notPso (by rw [h47]; norm_num))]
    omega
  rw [if_neg h47]
  by_cases h88 : byte cmd 1 = 0x88
  · rw [if_pos h88, ds_cmd_internal_authenticate, if_neg (notPso (by rw [h88]; norm_num))]
    omega
  rw [if_neg h88]
  by_cases ha4 : byte cmd 1 = 0xa4
  · rw [if_pos ha4, ds_cmd_select_file, if_neg (notPso (by rw [ha4]; norm_num))]
    omega
  rw [if_neg ha4]
  by_cases hb0 : byte cmd 1 = 0xb0
  · rw [if_pos hb0, ds_cmd_read_binary, if_neg (notPso (by rw [hb0]; norm_num))]
    omega
  rw [if_neg hb0]
  by_cases hca : byte cmd 1 = 0xca
  · rw [if_pos hca, ds_cmd_get_data, if_neg (notPso (by rw [hca]; norm_num))]
    omega
  rw [if_neg hca]
  by_cases hda : byte cmd 1 = 0xda ∨ byte cmd 1 = 0xdb
  · rw [if_pos hda, ds_cmd_put_data,
      if_neg (notPso (by rcases hda with h | h <;> rw [h] <;> norm_num))]
    omega
  rw [if_neg hda, if_neg (notPso h2a)]
  dsimp only
  omega

/-- The digital-signature counter never decreases along any run. -/
theorem runCmds_mono : ∀ (steps : List (Env × List Nat)) (s : CardState),
    s.ds_counter ≤ (runCmds steps s).ds_counter
  | [], _ => le_refl _
  | p :: rest, s => by
    have h2 := runCmds_mono rest (process_command_apdu p.1 s p.2).st
    have h1 : s.ds_counter ≤ (process_command_apdu p.1 s p.2).st.ds_counter := by
      rw [ds_step]
      exact Nat.le_add_right _ _
    exact le_trans h1 h2

/-- C6: across every sequence of commands the digital-signature
counter is monotonic, and a single command increments it exactly when
it is a PSO:CDS whose rsa_sign invocation runs and succeeds (and then
by exactly one); every other command leaves it unchanged. -/
theorem ds_counter_monotonic_counts_pso_cds :
    (∀ (env : Env) (s : CardState) (cmd : List Nat),
      (process_command_apdu env s cmd).st.ds_counter
        = s.ds_counter + (if PsoCdsSuccess env s cmd then 1 else 0))
  ∧ (∀ (steps : List (Env × List Nat)) (s : CardState),
      s.ds_counter ≤ (runCmds steps s).ds_counter) :=
  ⟨ds_step, runCmds_mono⟩

end Gnuk
